import Mathlib

/-!
# Verification of the illumiterm terminal-emulator lifecycle core

Shallow embedding of `src/illumiterm.c`: the session lifecycle
(`set_exit_status`, `destroy_and_quit`, `child_exited`, `child_ready`),
the close-confirmation gate (`create_confirm_dialog`,
`get_confirm_response`, `confirm_exit`), the geometry engine
(`adjust_font_size`, `reset_font_size`, `resize_terminal_window`,
`reset_window_size`), key dispatch (`key_press_event`), and spawn argv
construction (`spawn_vte_terminal`).

External collaborators (GTK, VTE, GLib, GDK, Pango) are modelled at
their interface boundary: object reference counts and keyed data become
explicit state fields, signal delivery becomes an event-step function
that does not fire handlers of a destroyed window (GTK disconnects the
handlers of a widget when it is destroyed), and cell metrics become an
abstract function of the font description size and the font scale.
Font scales use `ℚ`: the C literal `1.125` is exactly `9/8` in binary
floating point, and `1.0 / 1.125` is modelled by `8/9` (the double is
the correctly rounded neighbour; no claim depends on the ulp).
-/

set_option autoImplicit false

namespace Illumiterm

/-! ## Session lifecycle state

The observable state of one session: whether the toplevel window is
still alive, whether the command-line object is attached as the keyed
data item named cli on the window (`command_line` attaches it via
`g_object_set_data_full`), the list of exit statuses written so far to
the command-line object, the number of times the strong reference to
the command-line object has been released (`g_object_unref`), and the
number of spawn requests issued (`vte_terminal_spawn_async`). -/
structure SessionState where
  windowAlive : Bool
  cliData : Bool
  reports : List Int
  releases : Nat
  spawns : Nat
deriving DecidableEq, Repr

/-- Embedding of the C function `set_exit_status` (src/illumiterm.c
lines 49-58): when the command-line handle is non-null it writes the
exit status and releases one strong reference; when the handle is null
it does nothing. -/
def set_exit_status (cli : Bool) (status : Int) (s : SessionState) : SessionState :=
  if cli then
    { s with reports := s.reports ++ [status], releases := s.releases + 1 }
  else
    s

/-- Embedding of `destroy_window` (lines 62-65): `gtk_widget_destroy`
on the toplevel window; after this the window object is finalized, so
its signal handlers never fire again and its keyed data is gone. -/
def destroy_window (s : SessionState) : SessionState :=
  { s with windowAlive := false, cliData := false }

/-- Embedding of `destroy_and_quit` (lines 69-79): read the keyed data
item cli from the window, write the exit status through it (a no-op
when the data is null), then destroy the window. -/
def destroy_and_quit (status : Int) (s : SessionState) : SessionState :=
  destroy_window (set_exit_status s.cliData status s)

/-- Embedding of `handle_child_exit` and the `child_exited` signal
handler (lines 84-98): forward the child exit status to
`destroy_and_quit`. -/
def child_exited (status : Int) (s : SessionState) : SessionState :=
  destroy_and_quit status s

/-- Process identifier the VTE collaborator passes to the completion
callback of `vte_terminal_spawn_async` when the spawn failed: VTE
delivers pid -1 together with a set error on failure, and a positive
pid on success. -/
def VTE_SPAWN_FAILURE_PID : Int := -1

/-- Embedding of `child_ready` (lines 501-515), the completion callback
of `vte_terminal_spawn_async`: when the terminal pointer is null the
notification is dropped; when the pid equals 0 the window is destroyed
with the error code as exit status, the branch the source intends for
spawn failure; on every other pid, including the pid -1 that the
collaborator actually delivers on failure (`VTE_SPAWN_FAILURE_PID`),
nothing at all is done. -/
def child_ready (terminalValid : Bool) (pid : Int) (errCode : Int)
    (s : SessionState) : SessionState :=
  if terminalValid = false then s
  else if pid = 0 then destroy_and_quit errCode s
  else s

/-! ## Close-confirmation gate -/

/-- GTK response code for the No button. -/
def GTK_RESPONSE_NO : Int := -9

/-- GTK response code for the Yes button. -/
def GTK_RESPONSE_YES : Int := -8

/-- Observable configuration of the dialog built by
`create_confirm_dialog` (lines 341-384). -/
structure DialogConfig where
  title : String
  modal : Bool
  resizable : Bool
  deletable : Bool
  decorated : Bool
  buttons : List (String × Int)
deriving DecidableEq, Repr

/-- Embedding of `create_confirm_dialog` (lines 341-384): a modal,
non-resizable, non-deletable, decorated dialog titled Confirm close
with response buttons No and Yes. -/
def create_confirm_dialog : DialogConfig :=
  { title := "Confirm close"
  , modal := true
  , resizable := false
  , deletable := false
  , decorated := true
  , buttons := [("No", GTK_RESPONSE_NO), ("Yes", GTK_RESPONSE_YES)] }

/-- Embedding of `get_confirm_response` (lines 391-400): run the dialog
(the user answer is the `response` argument here), destroy it, and
return true exactly when the response is `GTK_RESPONSE_NO`. -/
def get_confirm_response (response : Int) : Bool :=
  if response = GTK_RESPONSE_NO then true else false

/-- Embedding of `confirm_exit` (lines 402-408): create the dialog and
return the gate answer for the user response (true cancels the close). -/
def confirm_exit (response : Int) : Bool :=
  get_confirm_response response

/-! ## Event delivery

Signals are delivered on the single GTK main-loop thread. A handler
whose instance was destroyed is disconnected and never fires, hence the
guard on `windowAlive`. A delete-event whose gate answer is false falls
through to the GTK default handler, which destroys the window without
going through `destroy_and_quit`. -/

/-- Events delivered to one session: spawn completion (per the VTE
spawn-async contract the collaborator passes pid -1 with the error set
when the spawn failed, and a positive pid on success), child-exit
notification, and a window-close request carrying the response the user
gives to the confirmation dialog. -/
inductive Event where
  | spawnCompleted (pid : Int) (errCode : Int)
  | childExited (status : Int)
  | deleteRequest (response : Int)
deriving DecidableEq, Repr

/-- Deliver one event to the session: a no-op when the window has been
destroyed, else dispatch to the connected handler. -/
def deliver (ev : Event) (s : SessionState) : SessionState :=
  if s.windowAlive then
    match ev with
    | .spawnCompleted pid err => child_ready true pid err s
    | .childExited status => child_exited status s
    | .deleteRequest response =>
        if confirm_exit response then s else destroy_window s
  else s

/-- Process a sequence of events in order. -/
def run (evs : List Event) (s : SessionState) : SessionState :=
  evs.foldl (fun t e => deliver e t) s

/-- Session state right after `command_line` (lines 1069-1096): window
alive, command-line object attached as keyed data with one strong
reference held by the session, no exit status written yet, one spawn
request issued. -/
def initState : SessionState :=
  { windowAlive := true, cliData := true, reports := [], releases := 0, spawns := 1 }

/-! ## Lifecycle lemmas -/

/-- Teardown invariant: while the window is alive nothing has been
reported or released, and in total at most one report and one release
ever happen. -/
def Inv (s : SessionState) : Prop :=
  (s.windowAlive = true → s.reports.length = 0 ∧ s.releases = 0) ∧
    s.reports.length ≤ 1 ∧ s.releases ≤ 1

theorem deliver_dead (ev : Event) (s : SessionState)
    (h : s.windowAlive = false) : deliver ev s = s := by
  unfold deliver
  rw [h]
  simp

theorem inv_step (ev : Event) (s : SessionState) (h : Inv s) :
    Inv (deliver ev s) := by
  obtain ⟨halive, hrep, hrel⟩ := h
  by_cases hw : s.windowAlive = true
  · obtain ⟨hr0, hl0⟩ := halive hw
    unfold deliver
    rw [hw]
    simp only [if_true]
    cases ev with
    | spawnCompleted pid err =>
        unfold child_ready destroy_and_quit destroy_window set_exit_status
        by_cases hp : pid = 0 <;> by_cases hc : s.cliData <;>
          simp [hp, hc, Inv, hr0, hl0]
    | childExited status =>
        unfold child_exited destroy_and_quit destroy_window set_exit_status
        by_cases hc : s.cliData <;>
          simp [hc, Inv, hr0, hl0]
    | deleteRequest response =>
        by_cases hg : confirm_exit response <;>
          simp [hg, Inv, destroy_window, hr0, hl0, hrep, hrel]
  · rw [deliver_dead ev s (by simpa using hw)]
    exact ⟨halive, hrep, hrel⟩

theorem run_inv (evs : List Event) :
    ∀ s : SessionState, Inv s → Inv (run evs s) := by
  induction evs with
  | nil => intro s h; exact h
  | cons e es ih =>
      intro s h
      exact ih (deliver e s) (inv_step e s h)

theorem inv_init : Inv initState := by
  constructor
  · intro _; exact ⟨rfl, rfl⟩
  · exact ⟨by decide, by decide⟩

/-! ## Geometry engine

The terminal surface is the VTE collaborator: its observable fields are
the grid size, the font scale, the font description point size, and the
pixel size of the owning window. Cell metrics are what
`vte_terminal_get_char_width` and `vte_terminal_get_char_height`
report; VTE computes them from the current font description and font
scale, so the collaborator is modelled by an arbitrary pair of metric
functions of (font size, scale). -/

/-- Terminal-surface plus window state used by the geometry code. -/
structure Terminal where
  rows : Int
  columns : Int
  fontScale : ℚ
  fontSize : Int
  windowWidth : Int
  windowHeight : Int
deriving DecidableEq, Repr

/-- Cell-metric interface of the VTE collaborator: pixel width and
height of one character cell as a function of the font description
point size and the font scale. -/
structure MetricModel where
  charWidth : Int → ℚ → Int
  charHeight : Int → ℚ → Int

/-- Embedding of `get_terminal_dimensions` (lines 100-112): rows,
columns, char width, char height of the terminal. -/
def get_terminal_dimensions (m : MetricModel) (t : Terminal) :
    Int × Int × Int × Int :=
  (t.rows, t.columns, m.charWidth t.fontSize t.fontScale,
    m.charHeight t.fontSize t.fontScale)

/-- Embedding of `get_container_dimensions` (lines 114-121): current
window size minus the space occupied by the terminal content, i.e. the
chrome size. -/
def get_container_dimensions (t : Terminal)
    (char_width char_height columns rows : Int) : Int × Int :=
  (t.windowWidth - char_width * columns, t.windowHeight - char_height * rows)

/-- Embedding of `adjust_font_scale` (lines 123-129): multiply the
current font scale by the factor. -/
def adjust_font_scale (t : Terminal) (factor : ℚ) : Terminal :=
  { t with fontScale := t.fontScale * factor }

/-- Embedding of `adjust_terminal_size` (lines 131-138): resize the
window to grid times cell metrics plus the given offsets. -/
def adjust_terminal_size (t : Terminal) (rows columns : Int)
    (char_width char_height owidth oheight : Int) : Terminal :=
  { t with
      windowWidth := columns * char_width + owidth
      windowHeight := rows * char_height + oheight }

/-- Embedding of `adjust_font_size` (lines 140-161): capture the
dimensions and the chrome offsets, mutate the font scale, re-read the
cell metrics, and resize the window from the post-mutation metrics and
the pre-mutation chrome offsets. -/
def adjust_font_size (m : MetricModel) (t : Terminal) (factor : ℚ) : Terminal :=
  let d := get_terminal_dimensions m t
  let o := get_container_dimensions t d.2.2.1 d.2.2.2 d.2.1 d.1
  let t1 := adjust_font_scale t factor
  let d1 := get_terminal_dimensions m t1
  adjust_terminal_size t1 d1.1 d1.2.1 d1.2.2.1 d1.2.2.2 o.1 o.2

/-- Embedding of `increase_font_size` (lines 163-170): zoom in by the
factor 1.125 = 9/8. -/
def increase_font_size (m : MetricModel) (t : Terminal) : Terminal :=
  adjust_font_size m t (9 / 8)

/-- Embedding of `decrease_font_size` (lines 172-179): zoom out by the
factor 1.0 / 1.125, modelled exactly as 8/9. -/
def decrease_font_size (m : MetricModel) (t : Terminal) : Terminal :=
  adjust_font_size m t (8 / 9)

/-- Embedding of `reset_font_scale` (lines 181-185): set the font scale
to exactly 1.0. -/
def reset_font_scale (t : Terminal) : Terminal :=
  { t with fontScale := 1 }

/-- Embedding of `reset_font_description_size` (lines 187-200): set the
point size of the font description to the given size. -/
def reset_font_description_size (t : Terminal) (size : Int) : Terminal :=
  { t with fontSize := size }

/-- Embedding of `resize_terminal_window` (lines 202-220): read the
current window size, subtract the space occupied by the given cell
metrics, and resize to grid times those metrics plus the remainder. -/
def resize_terminal_window (t : Terminal) (char_width char_height : Int) :
    Terminal :=
  let owidth := t.windowWidth - char_width * t.columns
  let oheight := t.windowHeight - char_height * t.rows
  { t with
      windowWidth := t.columns * char_width + owidth
      windowHeight := t.rows * char_height + oheight }

/-- Embedding of `reset_font_size` (lines 222-238): read the current
font description size, reset the scale to 1.0, write that same size
back into the font description, and call `resize_terminal_window` with
the cell metrics read after both mutations. -/
def reset_font_size (m : MetricModel) (t : Terminal) : Terminal :=
  let default_font_size := t.fontSize
  let t1 := reset_font_scale t
  let t2 := reset_font_description_size t1 default_font_size
  resize_terminal_window t2 (m.charWidth t2.fontSize t2.fontScale)
    (m.charHeight t2.fontSize t2.fontScale)

/-- Embedding of `reset_window_size` (lines 240-248): resize the window
to the fixed default 640 by 460 pixels. -/
def reset_window_size (t : Terminal) : Terminal :=
  { t with windowWidth := 640, windowHeight := 460 }

/-- Concrete cell-metric model used for witnesses and failing inputs:
metrics proportional to font size times scale, rounded down, with cells
twice as tall as wide. -/
def linearMetrics : MetricModel :=
  { charWidth := fun size scale => ⌊(size : ℚ) * scale⌋
  , charHeight := fun size scale => ⌊2 * (size : ℚ) * scale⌋ }

/-- Concrete terminal used for witnesses and failing inputs: an 80 by
24 grid at font size 10, scale 1, in a 640 by 460 window. -/
def sampleTerminal : Terminal :=
  { rows := 24, columns := 80, fontScale := 1, fontSize := 10
  , windowWidth := 640, windowHeight := 460 }

/-! ## Key dispatch -/

/-- GDK shift modifier bit. -/
def GDK_SHIFT_MASK : Nat := 1

/-- GDK control modifier bit. -/
def GDK_CONTROL_MASK : Nat := 4

/-- GDK mod1 (alt) modifier bit. -/
def GDK_MOD1_MASK : Nat := 8

/-- GDK super modifier bit. -/
def GDK_SUPER_MASK : Nat := 2 ^ 26

/-- GDK hyper modifier bit. -/
def GDK_HYPER_MASK : Nat := 2 ^ 27

/-- GDK meta modifier bit. -/
def GDK_META_MASK : Nat := 2 ^ 28

/-- Embedding of `gtk_accelerator_get_default_mod_mask`: the GTK
default accelerator mask, shift, control, mod1, super, hyper and meta. -/
def default_mod_mask : Nat :=
  GDK_SHIFT_MASK ||| GDK_CONTROL_MASK ||| GDK_MOD1_MASK |||
    GDK_SUPER_MASK ||| GDK_HYPER_MASK ||| GDK_META_MASK

/-- GDK keyval of the lowercase letter c. -/
def GDK_KEY_c : Nat := 0x63

/-- GDK keyval of the lowercase letter v. -/
def GDK_KEY_v : Nat := 0x76

/-- Model of the GDK collaborator `gdk_keyval_to_lower` on the Latin
letter range: uppercase A-Z map to a-z, everything else is unchanged. -/
def gdk_keyval_to_lower (k : Nat) : Nat :=
  if 0x41 ≤ k ∧ k ≤ 0x5A then k + 0x20 else k

/-- Key-press event: GDK modifier state, hardware keycode, keyval. -/
structure KeyEvent where
  state : Nat
  hardware_keycode : Nat
  keyval : Nat
deriving DecidableEq, Repr

/-- Clipboard calls a key handler can make on the VTE collaborator. -/
inductive ClipboardOp where
  | copyText
  | paste
deriving DecidableEq, Repr

/-- Result of the key-press handler: whether the event was consumed
(the C handler returns TRUE), the resulting terminal and window state,
and the clipboard call made, if any. -/
structure KeyResult where
  handled : Bool
  term : Terminal
  clipboard : Option ClipboardOp
deriving DecidableEq, Repr

/-- Embedding of `key_press_event` (lines 250-290): when the event
modifier state masked with the default accelerator mask is exactly
control plus shift, hardware keycode 21 zooms in, 20 zooms out, 19
resets the font size and then the window size, and otherwise the
lowercased keyval c copies as plain text and v pastes; every other
event is left unhandled and changes nothing. -/
def key_press_event (m : MetricModel) (ev : KeyEvent) (t : Terminal) :
    KeyResult :=
  if ev.state.land default_mod_mask = GDK_CONTROL_MASK ||| GDK_SHIFT_MASK then
    if ev.hardware_keycode = 21 then
      { handled := true, term := increase_font_size m t, clipboard := none }
    else if ev.hardware_keycode = 20 then
      { handled := true, term := decrease_font_size m t, clipboard := none }
    else if ev.hardware_keycode = 19 then
      { handled := true, term := reset_window_size (reset_font_size m t)
      , clipboard := none }
    else if gdk_keyval_to_lower ev.keyval = GDK_KEY_c then
      { handled := true, term := t, clipboard := some .copyText }
    else if gdk_keyval_to_lower ev.keyval = GDK_KEY_v then
      { handled := true, term := t, clipboard := some .paste }
    else
      { handled := false, term := t, clipboard := none }
  else
    { handled := false, term := t, clipboard := none }

/-! ## Spawn argv construction -/

/-- Embedding of the argv construction in `spawn_vte_terminal`
(lines 566-570): with an explicit cmd option the argv is the two
elements /bin/sh and the command string; without it the argv is the
single element value of the SHELL environment variable. -/
def spawn_argv (command : Option String) (shellEnv : String) : List String :=
  match command with
  | some c => ["/bin/sh", c]
  | none => [shellEnv]

/-- Terminal reached from `sampleTerminal` by one zoom-in key press,
used as a concrete failing input for the reset-path claims. -/
def zoomedTerminal : Terminal :=
  increase_font_size linearMetrics sampleTerminal

/-! ## Geometry lemmas -/

theorem resize_terminal_window_width (t : Terminal) (cw ch : Int) :
    (resize_terminal_window t cw ch).windowWidth = t.windowWidth := by
  simp only [resize_terminal_window]
  ring

theorem resize_terminal_window_height (t : Terminal) (cw ch : Int) :
    (resize_terminal_window t cw ch).windowHeight = t.windowHeight := by
  simp only [resize_terminal_window]
  ring

/-- The whole reset path is the identity except for the font scale: the
font description size is rewritten to its current value and the resize
computes the chrome from the post-mutation metrics, which cancels. -/
theorem reset_font_size_eq (m : MetricModel) (t : Terminal) :
    reset_font_size m t = { t with fontScale := 1 } := by
  simp only [reset_font_size, reset_font_scale, reset_font_description_size,
    resize_terminal_window]
  simp only [Terminal.mk.injEq]
  refine ⟨trivial, trivial, trivial, trivial, by ring, by ring⟩

/-- Unfolding of `adjust_font_size`: the chrome offsets are taken at
the pre-mutation metrics and the grid is re-measured at the
post-mutation metrics. -/
theorem adjust_font_size_eq (m : MetricModel) (t : Terminal) (factor : ℚ) :
    adjust_font_size m t factor =
      { t with
          fontScale := t.fontScale * factor
          windowWidth := t.columns * m.charWidth t.fontSize (t.fontScale * factor) +
            (t.windowWidth - m.charWidth t.fontSize t.fontScale * t.columns)
          windowHeight := t.rows * m.charHeight t.fontSize (t.fontScale * factor) +
            (t.windowHeight - m.charHeight t.fontSize t.fontScale * t.rows) } := by
  simp only [adjust_font_size, get_terminal_dimensions, get_container_dimensions,
    adjust_font_scale, adjust_terminal_size]

theorem zoomedTerminal_eq :
    zoomedTerminal =
      { rows := 24, columns := 80, fontScale := 9 / 8, fontSize := 10
      , windowWidth := 720, windowHeight := 508 } := by
  simp only [zoomedTerminal, increase_font_size, adjust_font_size_eq,
    sampleTerminal, linearMetrics, Terminal.mk.injEq]
  norm_num

/-! ## Claim theorems -/

/-- C1: teardown is idempotent. For any sequence of notifications
delivered to a session (child-exit notifications, late or duplicate
spawn-failure notifications, close requests), the exit status is
written to the command-invocation context and its strong reference is
released at most once, and any notification arriving after teardown has
destroyed the window is a no-op on the whole session state. -/
theorem teardown_at_most_once :
    (∀ evs : List Event,
      (run evs initState).reports.length ≤ 1 ∧
        (run evs initState).releases ≤ 1) ∧
    (∀ (ev : Event) (s : SessionState), s.windowAlive = false →
      deliver ev s = s) := by
  constructor
  · intro evs
    have h := run_inv evs initState inv_init
    exact ⟨h.2.1, h.2.2⟩
  · intro ev s h
    exact deliver_dead ev s h

/-- Witness for C1 at a concrete interleaving: a child exit with status
0 followed by a late spawn-failure completion (pid -1, code 5) reports
and releases at most once, and the second notification is a literal
no-op. -/
theorem teardown_at_most_once_witness :
    (run [Event.childExited 0, Event.spawnCompleted (-1) 5]
      initState).reports.length ≤ 1 ∧
    (run [Event.childExited 0, Event.spawnCompleted (-1) 5]
      initState).releases ≤ 1 ∧
    deliver (Event.spawnCompleted (-1) 5) (run [Event.childExited 0] initState) =
      run [Event.childExited 0] initState :=
  ⟨(teardown_at_most_once.1 [Event.childExited 0, Event.spawnCompleted (-1) 5]).1,
   (teardown_at_most_once.1 [Event.childExited 0, Event.spawnCompleted (-1) 5]).2,
   teardown_at_most_once.2 (Event.spawnCompleted (-1) 5)
     (run [Event.childExited 0] initState) (by decide)⟩

/-- C2 counterexample: with the explicit command option `echo hi`, the
argv built by `spawn_vte_terminal` is `["/bin/sh", "echo hi"]`, which
is not the `["/bin/sh", "-c", "echo hi"]` of the claim: no `-c`
element is ever constructed. -/
theorem spawn_argv_dash_c_counterexample :
    spawn_argv (some "echo hi") "/bin/bash" = ["/bin/sh", "echo hi"] ∧
    spawn_argv (some "echo hi") "/bin/bash" ≠ ["/bin/sh", "-c", "echo hi"] :=
  ⟨rfl, by decide⟩

/-- C2 amended: when an explicit command option is supplied the argv is
the two-element list `["/bin/sh", <cmd>]` (no `-c`); when no command
option is supplied the argv is the single-element list holding the
value of the SHELL environment variable. -/
theorem spawn_argv_amended (c shell : String) :
    spawn_argv (some c) shell = ["/bin/sh", c] ∧
      spawn_argv none shell = [shell] :=
  ⟨rfl, rfl⟩

/-- C5: the claimed failure-triggered teardown never happens. Per the
VTE spawn-async contract a failed spawn invokes the completion callback
with pid -1 (`VTE_SPAWN_FAILURE_PID`) and the error set, but
`child_ready` tests pid against 0, so on the real failure completion it
falls through with no action: for every error code and session state
the state is unchanged, and at the failing input (failure code 71
delivered to the live initial session) nothing is reported and the
window stays alive. The teardown branch of the source does exist, but
it is keyed to the pid value 0 that the collaborator never delivers. -/
theorem spawn_failure_callback_noop :
    (∀ (e : Int) (s : SessionState),
      child_ready true VTE_SPAWN_FAILURE_PID e s = s) ∧
    (∀ e : Int,
      deliver (Event.spawnCompleted VTE_SPAWN_FAILURE_PID e) initState =
        initState) ∧
    (deliver (Event.spawnCompleted VTE_SPAWN_FAILURE_PID 71) initState).reports
      = [] ∧
    (deliver (Event.spawnCompleted VTE_SPAWN_FAILURE_PID 71)
      initState).windowAlive = true ∧
    child_ready true 0 71 initState = destroy_and_quit 71 initState := by
  have hpid : VTE_SPAWN_FAILURE_PID ≠ 0 := by decide
  have hnoop : ∀ (e : Int) (s : SessionState),
      child_ready true VTE_SPAWN_FAILURE_PID e s = s := by
    intro e s
    simp [child_ready, hpid]
  have hdeliver : ∀ e : Int,
      deliver (Event.spawnCompleted VTE_SPAWN_FAILURE_PID e) initState =
        initState := by
    intro e
    simp [deliver, initState, hnoop e]
  refine ⟨hnoop, hdeliver, ?_, ?_, ?_⟩
  · rw [hdeliver 71]
    rfl
  · rw [hdeliver 71]
    rfl
  · simp [child_ready]

/-- C8: when no command-invocation context is attached to the window,
teardown still destroys the window and performs no exit-status write
and no reference release: the null branch of `set_exit_status` is
taken. -/
theorem teardown_null_cli (status : Int) (s : SessionState)
    (h : s.cliData = false) :
    destroy_and_quit status s = { s with windowAlive := false, cliData := false } ∧
    (destroy_and_quit status s).reports = s.reports ∧
    (destroy_and_quit status s).releases = s.releases ∧
    (destroy_and_quit status s).windowAlive = false := by
  unfold destroy_and_quit set_exit_status destroy_window
  rw [h]
  simp

/-- Witness for C8: tearing down with status 3 and no attached context
destroys the window and leaves the report list empty and the release
count zero. -/
theorem teardown_null_cli_witness :
    (destroy_and_quit 3
      { windowAlive := true, cliData := false, reports := [], releases := 0
      , spawns := 1 }).reports = [] ∧
    (destroy_and_quit 3
      { windowAlive := true, cliData := false, reports := [], releases := 0
      , spawns := 1 }).releases = 0 ∧
    (destroy_and_quit 3
      { windowAlive := true, cliData := false, reports := [], releases := 0
      , spawns := 1 }).windowAlive = false := by
  have h := teardown_null_cli 3
    { windowAlive := true, cliData := false, reports := [], releases := 0
    , spawns := 1 } rfl
  exact ⟨h.2.1, h.2.2.1, h.2.2.2⟩

/-- C9: when the spawn-completion callback `child_ready` is invoked
with a nonzero process identifier, it performs no action: the whole
session state is returned unchanged (the model has no pid field
precisely because the code stores the pid nowhere). -/
theorem child_ready_success_noop (pid : Int) (errCode : Int)
    (s : SessionState) (h : pid ≠ 0) :
    child_ready true pid errCode s = s := by
  unfold child_ready
  simp [h]

/-- Witness for C9: a successful spawn completion with pid 1234 leaves
the initial session state untouched. -/
theorem child_ready_success_noop_witness :
    child_ready true 1234 0 initState = initState :=
  child_ready_success_noop 1234 0 initState (by decide)

/-- C3: the capture-before-mutate contract fails on the reset path.
`reset_font_size` calls `resize_terminal_window`, which derives the
chrome from the window size and the post-mutation cell metrics, so for
every metric model and terminal the reset resize is the identity on the
window size. At the failing input `zoomedTerminal` (80 by 24 grid, font
size 10, scale 9/8, window 720 by 508), the pre-mutation char width is
11 and the post-mutation one is 10, and the window width stays 720
instead of the 640 = 80 * 10 + (720 - 11 * 80) required by the
capture-mutate-resize equation of the claim. -/
theorem reset_font_size_stale_chrome :
    (∀ (m : MetricModel) (t : Terminal),
      (reset_font_size m t).windowWidth = t.windowWidth ∧
        (reset_font_size m t).windowHeight = t.windowHeight) ∧
    linearMetrics.charWidth zoomedTerminal.fontSize zoomedTerminal.fontScale = 11 ∧
    linearMetrics.charWidth zoomedTerminal.fontSize 1 = 10 ∧
    zoomedTerminal.windowWidth = 720 ∧
    (reset_font_size linearMetrics zoomedTerminal).windowWidth = 720 ∧
    zoomedTerminal.columns * linearMetrics.charWidth zoomedTerminal.fontSize 1 +
      (zoomedTerminal.windowWidth -
        linearMetrics.charWidth zoomedTerminal.fontSize zoomedTerminal.fontScale *
          zoomedTerminal.columns) = 640 ∧
    (reset_font_size linearMetrics zoomedTerminal).windowWidth ≠
      zoomedTerminal.columns * linearMetrics.charWidth zoomedTerminal.fontSize 1 +
        (zoomedTerminal.windowWidth -
          linearMetrics.charWidth zoomedTerminal.fontSize zoomedTerminal.fontScale *
            zoomedTerminal.columns) := by
  refine ⟨?_, ?_, ?_, ?_, ?_, ?_, ?_⟩
  · intro m t
    rw [reset_font_size_eq]
    exact ⟨rfl, rfl⟩
  · rw [zoomedTerminal_eq]
    simp only [linearMetrics]
    norm_num
  · rw [zoomedTerminal_eq]
    simp only [linearMetrics]
    norm_num
  · rw [zoomedTerminal_eq]
  · rw [reset_font_size_eq, zoomedTerminal_eq]
  · rw [zoomedTerminal_eq]
    simp only [linearMetrics]
    norm_num
  · rw [reset_font_size_eq, zoomedTerminal_eq]
    simp only [linearMetrics]
    norm_num

/-- C4: reset does set the scale to exactly 1.0 and leaves the font
description size at its creation value, but the window size is not
recomputed from the default font size: after one zoom-in from
`sampleTerminal` (640 by 460) the window is 720 by 508, and
`reset_font_size` keeps it at 720 by 508 because its resize is the
identity, instead of restoring the 640 by 460 derived from the original
default font size. -/
theorem reset_after_zoom_keeps_zoomed_window :
    (reset_font_size linearMetrics zoomedTerminal).fontScale = 1 ∧
    (reset_font_size linearMetrics zoomedTerminal).fontSize =
      sampleTerminal.fontSize ∧
    (reset_font_size linearMetrics zoomedTerminal).windowWidth = 720 ∧
    (reset_font_size linearMetrics zoomedTerminal).windowHeight = 508 ∧
    sampleTerminal.columns *
        linearMetrics.charWidth sampleTerminal.fontSize 1 +
        (sampleTerminal.windowWidth -
          linearMetrics.charWidth sampleTerminal.fontSize 1 *
            sampleTerminal.columns) = 640 ∧
    sampleTerminal.rows *
        linearMetrics.charHeight sampleTerminal.fontSize 1 +
        (sampleTerminal.windowHeight -
          linearMetrics.charHeight sampleTerminal.fontSize 1 *
            sampleTerminal.rows) = 460 ∧
    (720 : Int) ≠ 640 ∧ (508 : Int) ≠ 460 := by
  refine ⟨?_, ?_, ?_, ?_, ?_, ?_, by decide, by decide⟩
  · rw [reset_font_size_eq]
  · rw [reset_font_size_eq, zoomedTerminal_eq]
    rfl
  · rw [reset_font_size_eq, zoomedTerminal_eq]
  · rw [reset_font_size_eq, zoomedTerminal_eq]
  · simp only [sampleTerminal, linearMetrics]
    norm_num
  · simp only [sampleTerminal, linearMetrics]
    norm_num

/-- C6: the close-confirmation gate returns cancel (true) exactly when
the response is the No button, returns proceed (false) on Yes, and the
dialog it presents is modal, non-resizable and non-deletable, with
exactly the No and Yes buttons. -/
theorem confirm_gate_spec :
    (∀ r : Int, get_confirm_response r = true ↔ r = GTK_RESPONSE_NO) ∧
    get_confirm_response GTK_RESPONSE_YES = false ∧
    (∀ r : Int, confirm_exit r = get_confirm_response r) ∧
    create_confirm_dialog.modal = true ∧
    create_confirm_dialog.resizable = false ∧
    create_confirm_dialog.deletable = false ∧
    create_confirm_dialog.buttons =
      [("No", GTK_RESPONSE_NO), ("Yes", GTK_RESPONSE_YES)] := by
  refine ⟨?_, by decide, fun r => rfl, rfl, rfl, rfl, rfl⟩
  intro r
  simp [get_confirm_response]

/-- Witness for C6: answering No cancels the close and answering Yes
proceeds. -/
theorem confirm_gate_spec_witness :
    get_confirm_response GTK_RESPONSE_NO = true ∧
    get_confirm_response GTK_RESPONSE_YES = false :=
  ⟨(confirm_gate_spec.1 GTK_RESPONSE_NO).mpr rfl, confirm_gate_spec.2.1⟩

/-- C7: a key press whose modifier state masked with the default
accelerator mask is exactly control plus shift is consumed exactly when
its trigger is mapped: hardware keycode 21 multiplies the font scale by
1.125, keycode 20 divides it by 1.125, keycode 19 resets the font size
and then the window to the fixed 640 by 460 default, lowercased keyval
c copies as plain text, lowercased keyval v pastes; every other key
press, including control plus shift with an unmapped trigger, is left
unhandled and changes nothing. -/
theorem key_press_dispatch (m : MetricModel) (ev : KeyEvent) (t : Terminal) :
    ((key_press_event m ev t).handled = true ↔
      (ev.state.land default_mod_mask = (GDK_CONTROL_MASK ||| GDK_SHIFT_MASK) ∧
        (ev.hardware_keycode = 21 ∨ ev.hardware_keycode = 20 ∨
          ev.hardware_keycode = 19 ∨
          gdk_keyval_to_lower ev.keyval = GDK_KEY_c ∨
          gdk_keyval_to_lower ev.keyval = GDK_KEY_v))) ∧
    (ev.state.land default_mod_mask = (GDK_CONTROL_MASK ||| GDK_SHIFT_MASK) →
      (ev.hardware_keycode = 21 →
        key_press_event m ev t =
          { handled := true, term := increase_font_size m t, clipboard := none }) ∧
      (ev.hardware_keycode = 20 →
        key_press_event m ev t =
          { handled := true, term := decrease_font_size m t, clipboard := none }) ∧
      (ev.hardware_keycode = 19 →
        key_press_event m ev t =
          { handled := true, term := reset_window_size (reset_font_size m t)
          , clipboard := none }) ∧
      (ev.hardware_keycode ≠ 21 → ev.hardware_keycode ≠ 20 →
        ev.hardware_keycode ≠ 19 →
        gdk_keyval_to_lower ev.keyval = GDK_KEY_c →
        key_press_event m ev t =
          { handled := true, term := t, clipboard := some ClipboardOp.copyText }) ∧
      (ev.hardware_keycode ≠ 21 → ev.hardware_keycode ≠ 20 →
        ev.hardware_keycode ≠ 19 →
        gdk_keyval_to_lower ev.keyval ≠ GDK_KEY_c →
        gdk_keyval_to_lower ev.keyval = GDK_KEY_v →
        key_press_event m ev t =
          { handled := true, term := t, clipboard := some ClipboardOp.paste })) ∧
    ((key_press_event m ev t).handled = false →
      key_press_event m ev t = { handled := false, term := t, clipboard := none }) ∧
    (increase_font_size m t).fontScale = t.fontScale * (9 / 8) ∧
    (decrease_font_size m t).fontScale = t.fontScale * (8 / 9) ∧
    (reset_window_size (reset_font_size m t)).windowWidth = 640 ∧
    (reset_window_size (reset_font_size m t)).windowHeight = 460 ∧
    (reset_window_size (reset_font_size m t)).fontScale = 1 := by
  refine ⟨?_, ?_, ?_, ?_, ?_, rfl, rfl, ?_⟩
  · unfold key_press_event
    split_ifs with h1 h2 h3 h4 h5 h6 <;> simp_all
  · intro hmods
    refine ⟨?_, ?_, ?_, ?_, ?_⟩
    · intro hk
      simp [key_press_event, hmods, hk]
    · intro hk
      simp [key_press_event, hmods, hk]
    · intro hk
      simp [key_press_event, hmods, hk]
    · intro h21 h20 h19 hc
      simp [key_press_event, hmods, h21, h20, h19, hc]
    · intro h21 h20 h19 hc hv
      simp [key_press_event, hmods, h21, h20, h19, hc, hv,
        show GDK_KEY_v ≠ GDK_KEY_c by decide]
  · intro hfalse
    revert hfalse
    unfold key_press_event
    split_ifs <;> simp
  · rw [show increase_font_size m t = adjust_font_size m t (9 / 8) from rfl,
      adjust_font_size_eq]
  · rw [show decrease_font_size m t = adjust_font_size m t (8 / 9) from rfl,
      adjust_font_size_eq]
  · rw [reset_font_size_eq]
    exact rfl

/-- Witness for C7: a control-shift press of hardware keycode 21 on the
sample terminal is handled and zooms in, and the same modifiers with an
unmapped trigger (keycode 53, keyval x) are left unhandled with the
terminal unchanged. -/
theorem key_press_dispatch_witness :
    (key_press_event linearMetrics
      { state := 5, hardware_keycode := 21, keyval := 0 } sampleTerminal) =
      { handled := true
      , term := increase_font_size linearMetrics sampleTerminal
      , clipboard := none } ∧
    (key_press_event linearMetrics
      { state := 5, hardware_keycode := 53, keyval := 0x78 } sampleTerminal) =
      { handled := false, term := sampleTerminal, clipboard := none } := by
  constructor
  · exact ((key_press_dispatch linearMetrics
      { state := 5, hardware_keycode := 21, keyval := 0 } sampleTerminal).2.1
        (by decide)).1 rfl
  · have h := (key_press_dispatch linearMetrics
      { state := 5, hardware_keycode := 53, keyval := 0x78 } sampleTerminal)
    refine h.2.2.1 ?_
    cases hb : (key_press_event linearMetrics
      { state := 5, hardware_keycode := 53, keyval := 0x78 } sampleTerminal).handled
    · rfl
    · exfalso
      have hcond := h.1.mp hb
      revert hcond
      decide

/-- C10: the key handler lowercases the keyval before comparing, so
under control plus shift both cases of the letter keys trigger: keyvals
c and C both copy as plain text, and v and V both paste. -/
theorem key_dispatch_lowercases_keyval (m : MetricModel) (t : Terminal) :
    key_press_event m { state := 5, hardware_keycode := 54, keyval := 0x63 } t =
      { handled := true, term := t, clipboard := some ClipboardOp.copyText } ∧
    key_press_event m { state := 5, hardware_keycode := 54, keyval := 0x43 } t =
      { handled := true, term := t, clipboard := some ClipboardOp.copyText } ∧
    key_press_event m { state := 5, hardware_keycode := 55, keyval := 0x76 } t =
      { handled := true, term := t, clipboard := some ClipboardOp.paste } ∧
    key_press_event m { state := 5, hardware_keycode := 55, keyval := 0x56 } t =
      { handled := true, term := t, clipboard := some ClipboardOp.paste } ∧
    gdk_keyval_to_lower 0x43 = gdk_keyval_to_lower 0x63 := by
  refine ⟨rfl, rfl, rfl, rfl, by decide⟩

end Illumiterm
